import Mathlib

/-!
Verification of the client-side request optimization layer
(`src/utils/requestManager.js`) and the connection prober
(`src/utils/supabase.js`) of the mindy-3 repository.

The JavaScript is shallowly embedded: JSON-like values become an inductive
type whose objects keep property insertion order (as JS objects do), the
module-level mutable maps become explicit state records, `Date.now()` becomes
an explicit `now : Nat` argument, and the asynchronous retry chain of
`makeRequest` becomes a pure event trace driven by a transport oracle that
gives the outcome of each fetch attempt.
-/

set_option autoImplicit false

namespace RequestManager

/-- JSON-like values.  Objects are association lists that keep property
insertion order, exactly as JavaScript objects do; two objects that are equal
as maps but were built in a different order are *different* `JVal`s, which is
what makes `JSON.stringify` order sensitive. -/
inductive JVal where
  | null
  | bool (b : Bool)
  | num (n : Int)
  | str (s : String)
  | arr (items : List JVal)
  | obj (fields : List (String × JVal))
deriving Repr

/-- JSON escaping of one character sequence (backslash and quote, the two
characters `JSON.stringify` must escape in the strings that occur here). -/
def jsonEscapeList : List Char → List Char
  | [] => []
  | c :: rest =>
      (if c = '\\' then ['\\', '\\']
       else if c = '"' then ['\\', '"']
       else [c]) ++ jsonEscapeList rest

/-- JSON string escaping. -/
def jsonEscape (s : String) : String :=
  ⟨jsonEscapeList s.data⟩

/-- Is `p` a prefix of `s` (on character lists)? -/
def listPrefixEq : List Char → List Char → Bool
  | [], _ => true
  | _ :: _, [] => false
  | a :: as, b :: bs => a == b && listPrefixEq as bs

/-- Does `l` contain `sub` as a contiguous sublist? -/
def listContainsSub : List Char → List Char → Bool
  | [], sub => sub.isEmpty
  | a :: as, sub => listPrefixEq sub (a :: as) || listContainsSub as sub

/-- JavaScript `String.prototype.startsWith`. -/
def jsStartsWith (s p : String) : Bool :=
  listPrefixEq p.data s.data

mutual

/-- `JSON.stringify`, restricted to the value shapes the request manager
serializes.  Field order follows the insertion order of the object, as in
JavaScript's default (non-canonical) stringification. -/
def stringify : JVal → String
  | JVal.null => "null"
  | JVal.bool b => if b then "true" else "false"
  | JVal.num n => toString n
  | JVal.str s => "\"" ++ jsonEscape s ++ "\""
  | JVal.arr items => "[" ++ stringifyItems items ++ "]"
  | JVal.obj fields => "\x7b" ++ stringifyFields fields ++ "\x7d"

def stringifyItems : List JVal → String
  | [] => ""
  | [v] => stringify v
  | v :: rest => stringify v ++ "," ++ stringifyItems rest

def stringifyFields : List (String × JVal) → String
  | [] => ""
  | [(k, v)] => "\"" ++ jsonEscape k ++ "\":" ++ stringify v
  | (k, v) :: rest =>
      "\"" ++ jsonEscape k ++ "\":" ++ stringify v ++ "," ++ stringifyFields rest

end

/-- `generateCacheKey(endpoint, params)` from requestManager.js:
`` `${endpoint}:${JSON.stringify(params)}` ``. -/
def generateCacheKey (endpoint : String) (params : JVal) : String :=
  endpoint ++ ":" ++ stringify params

/-! ### Association-list helpers modelling JavaScript `Map` / plain objects -/

/-- `Map.get` / property lookup: first entry with the given key. -/
def alookup {α : Type} (m : List (String × α)) (k : String) : Option α :=
  match m.find? (fun p => p.1 == k) with
  | some p => some p.2
  | none => none

/-- `Map.set`: update in place if the key exists, otherwise append
(JavaScript `Map`s keep insertion order). -/
def aset {α : Type} (m : List (String × α)) (k : String) (v : α) :
    List (String × α) :=
  if (m.find? (fun p => p.1 == k)).isSome then
    m.map (fun p => if p.1 == k then (k, v) else p)
  else m ++ [(k, v)]

/-- `Map.delete`. -/
def aerase {α : Type} (m : List (String × α)) (k : String) :
    List (String × α) :=
  m.filter (fun p => !(p.1 == k))

/-! ### Request-frequency tracker (`requestTracker`) -/

/-- One entry of `requestTracker.endpoints`. -/
structure EndpointRecord where
  count : Nat
  timestamps : List Nat
  isThrottled : Bool
  lastWarning : Nat
deriving Repr, DecidableEq

/-- `{ count: 0, timestamps: [], isThrottled: false, lastWarning: 0 }`. -/
def freshRecord : EndpointRecord := ⟨0, [], false, 0⟩

/-- The whole `requestTracker` object (its mutable fields). -/
structure TrackerState where
  endpoints : List (String × EndpointRecord)
  lastCleanup : Nat
deriving Repr, DecidableEq

/-- `requestTracker.cleanup()`: keep only timestamps from the last minute,
and record the cleanup time. -/
def cleanupTracker (ts : TrackerState) (now : Nat) : TrackerState :=
  ⟨ts.endpoints.map
      (fun p => (p.1, { p.2 with
        timestamps := p.2.timestamps.filter (fun t => now - t < 60000) })),
    now⟩

/-- `timestamps.push(now); count++` of `track`. -/
def bumpRecord (r : EndpointRecord) (now : Nat) : EndpointRecord :=
  { r with timestamps := r.timestamps ++ [now], count := r.count + 1 }

/-- The record as `track` marks it throttled: warning time recorded. -/
def throttledRecord (r : EndpointRecord) (now : Nat) : EndpointRecord :=
  { r with isThrottled := true, lastWarning := now }

/-- The burst test of `track`: more than 10 timestamps within the last
second, and no warning within the last 5 seconds, throttles the endpoint;
otherwise the current throttle flag is returned. -/
def trackDecide (ts1 : TrackerState) (endpoint : String) (now : Nat)
    (r1 : EndpointRecord) : Bool × TrackerState :=
  if (r1.timestamps.filter (fun t => now - t < 1000)).length > 10 ∧
      now - r1.lastWarning > 5000 then
    (true, { ts1 with
      endpoints := aset ts1.endpoints endpoint (throttledRecord r1 now) })
  else
    (r1.isThrottled, { ts1 with endpoints := aset ts1.endpoints endpoint r1 })

/-- `track` after the optional cleanup: look up (or initialize) the record,
append the timestamp, and run the burst test. -/
def trackAfterCleanup (ts1 : TrackerState) (endpoint : String) (now : Nat) :
    Bool × TrackerState :=
  trackDecide ts1 endpoint now
    (bumpRecord ((alookup ts1.endpoints endpoint).getD freshRecord) now)

/-- `requestTracker.track(endpoint)`.  Returns the value `track` returns
(`true` when the endpoint was just throttled, otherwise the current throttle
flag) together with the updated tracker.  The `setTimeout` that auto-clears
the throttle 10 seconds later is a scheduled future event and is not part of
this synchronous step. -/
def track (ts : TrackerState) (endpoint : String) (now : Nat) :
    Bool × TrackerState :=
  trackAfterCleanup
    (if now - ts.lastCleanup > 60000 then cleanupTracker ts now else ts)
    endpoint now

/-- `requestTracker.isThrottled(endpoint)`:
`this.endpoints[endpoint]?.isThrottled || false`. -/
def trackerIsThrottled (ts : TrackerState) (endpoint : String) : Bool :=
  match alookup ts.endpoints endpoint with
  | some r => r.isThrottled
  | none => false

/-- Iterated `track` over a list of call times (one `track` per
`optimizedRequest` call that reaches the tracking step). -/
def runTrack (ts : TrackerState) (endpoint : String) (times : List Nat) :
    TrackerState :=
  times.foldl (fun s t => (track s endpoint t).2) ts

/-! ### Request cache and `optimizedRequest` options -/

/-- One value of the `requestCache` map: `{ data, timestamp }`. -/
structure CacheEntry where
  data : JVal
  timestamp : Nat
deriving Repr

def DEFAULT_CACHE_TTL : Nat := 5 * 60 * 1000
def HEALTH_CHECK_TTL : Nat := 5 * 60 * 1000

/-- JavaScript `String.prototype.includes`. -/
def jsIncludes (s sub : String) : Bool :=
  listContainsSub s.data sub.data

/-- The `effectiveCacheTTL` computation of `optimizedRequest`.  Note that the
source tests `else if (cacheTTL)`, so a caller-supplied TTL of `0` is falsy
and falls back to the default. -/
def effectiveCacheTTL (endpoint : String) (cacheTTL : Nat) : Nat :=
  if jsIncludes endpoint "/health" then HEALTH_CHECK_TTL
  else if jsIncludes endpoint "/resources" then 10 * 60 * 1000
  else if cacheTTL ≠ 0 then cacheTTL
  else DEFAULT_CACHE_TTL

/-- The `options` object of `optimizedRequest`, with the source's defaults.
`headers`, `retryDelay` etc. are carried even when a claim ignores them. -/
structure RequestOptions where
  method : String := "GET"
  body : JVal := JVal.null
  params : JVal := JVal.obj []
  headers : List (String × String) := []
  cacheTTL : Nat := DEFAULT_CACHE_TTL
  bypassCache : Bool := false
  retryCount : Nat := 2
  retryDelay : Nat := 1000
  priority : String := "normal"

/-- The object `{ method, params, body }` that `optimizedRequest` passes to
`generateCacheKey` (in that insertion order). -/
def reqIdentity (o : RequestOptions) : JVal :=
  JVal.obj [("method", JVal.str o.method), ("params", o.params), ("body", o.body)]

/-- The cache key `optimizedRequest` computes for a call. -/
def cacheKeyFor (endpoint : String) (o : RequestOptions) : String :=
  generateCacheKey endpoint (reqIdentity o)

/-- The module-level mutable state of requestManager.js.  `pendingRequests`
maps a cache key to the identity (`Nat`) of the promise stored for it;
`nextId` supplies fresh promise identities. -/
structure RMState where
  requestCache : List (String × CacheEntry)
  pendingRequests : List (String × Nat)
  tracker : TrackerState
  nextId : Nat

/-- `clearRequestCache(endpoint)`: the source tests `if (endpoint)`, a
truthiness check, so both `null` (here `none`) and the empty string are
falsy and clear the entire cache; any other endpoint string deletes exactly
the keys that start with `` `${endpoint}:` ``. -/
def clearRequestCache (cache : List (String × CacheEntry))
    (endpoint : Option String) : List (String × CacheEntry) :=
  match endpoint with
  | some e =>
      if e = "" then []
      else cache.filter (fun p => !(jsStartsWith p.1 (e ++ ":")))
  | none => []

/-! ### The synchronous front half of `optimizedRequest`

Everything `optimizedRequest` does before its first suspension point is one
synchronous step of the event loop.  The throttle gate can end the call early
(stale cache return, throttled error) or suspend it for 2 seconds; past the
gate, tracking, the cache check, the dedup check and the registration of a
new pending promise all happen atomically. -/

/-- Result of the throttle gate (the `requestTracker.isThrottled` block). -/
inductive GateResult where
  | staleReturn (data : JVal)
  | throttledReject
  | pauseThenProceed
  | proceed

/-- The throttle gate of `optimizedRequest`: runs before tracking. -/
def throttleGate (st : RMState) (endpoint : String) (key : String)
    (priority : String) : GateResult :=
  if trackerIsThrottled st.tracker endpoint = true ∧ priority ≠ "high" then
    match alookup st.requestCache key with
    | some entry => GateResult.staleReturn entry.data
    | none =>
        if priority = "low" then GateResult.throttledReject
        else GateResult.pauseThenProceed
  else GateResult.proceed

/-- Observable outcome of the synchronous front half of one
`optimizedRequest` call. -/
inductive CallOutcome where
  | staleReturn (data : JVal)
  | throttledReject
  | paused
  | cacheHit (data : JVal)
  | dedup (pid : Nat)
  | started (pid : Nat)

/-- The pending-request check: join an in-flight promise with the same key,
or register a fresh one.  The source stores the promise right after invoking
`makeRequest()`; nothing in between reads the map, so the two are one atomic
step here. -/
def pendingCheck (st : RMState) (key : String) : CallOutcome × RMState :=
  match alookup st.pendingRequests key with
  | some pid => (CallOutcome.dedup pid, st)
  | none =>
      (CallOutcome.started st.nextId,
       { st with
          pendingRequests := aset st.pendingRequests key st.nextId,
          nextId := st.nextId + 1 })

/-- Tracking, the GET cache check (with lazy eviction of an expired entry),
then the pending-request check, in source order. -/
def proceedPhase (st : RMState) (endpoint : String) (o : RequestOptions)
    (key : String) (ttl : Nat) (now : Nat) : CallOutcome × RMState :=
  let st1 : RMState := { st with tracker := (track st.tracker endpoint now).2 }
  if o.bypassCache = false ∧ o.method = "GET" then
    match alookup st1.requestCache key with
    | some entry =>
        if now - entry.timestamp < ttl then (CallOutcome.cacheHit entry.data, st1)
        else pendingCheck { st1 with requestCache := aerase st1.requestCache key } key
    | none => pendingCheck st1 key
  else pendingCheck st1 key

/-- The synchronous front half of `optimizedRequest(endpoint, options)` at
time `now`.  A `paused` outcome is the throttled normal-priority 2-second
wait: the call resumes later with `proceedPhase` at the later time. -/
def optimizedRequestSync (st : RMState) (endpoint : String)
    (o : RequestOptions) (now : Nat) : CallOutcome × RMState :=
  let key := cacheKeyFor endpoint o
  match throttleGate st endpoint key o.priority with
  | GateResult.staleReturn d => (CallOutcome.staleReturn d, st)
  | GateResult.throttledReject => (CallOutcome.throttledReject, st)
  | GateResult.pauseThenProceed => (CallOutcome.paused, st)
  | GateResult.proceed =>
      proceedPhase st endpoint o key (effectiveCacheTTL endpoint o.cacheTTL) now

/-- The terminal bookkeeping of a GET request chain that succeeded on its
first attempt: cache the response, then delete the pending entry (both happen
in the same synchronous turn in the source: the `requestCache.set` followed
by the `finally`). -/
def completeChainSuccess (st : RMState) (key : String) (d : JVal) (now : Nat) :
    RMState :=
  { st with
      requestCache := aset st.requestCache key ⟨d, now⟩,
      pendingRequests := aerase st.pendingRequests key }

/-! ### The retry chain of `makeRequest`

`makeRequest(retryAttempt)` performs one `fetch`; on failure with attempts
left it waits `retryDelay * (retryAttempt + 1)` and recurses; its `finally`
deletes the pending-map entry when `retryAttempt === retryCount ||
retryAttempt === 0`.  A transport oracle gives each attempt's outcome
(`.ok data` for a parsed 2xx response, `.error e` for a network failure or
non-OK status).  The chain is rendered as an ordered list of events; the
`finally` of a failed attempt `n` runs in the same synchronous turn in which
attempt `n+1`'s fetch is initiated (right after the retry delay), so no
interleaving point separates the `pendingDelete` from the next `fetch` and we
place the delete first. -/

/-- Observable events of one `makeRequest` chain. -/
inductive ChainEvent where
  | fetch (attempt : Nat)
  | retryWait (attempt : Nat) (delayMs : Nat)
  | cacheStore (attempt : Nat)
  | pendingDelete (attempt : Nat)
  | settle (result : Except JVal JVal)
deriving Repr

def ChainEvent.isFetch : ChainEvent → Bool
  | ChainEvent.fetch _ => true
  | _ => false

def ChainEvent.isCacheStore : ChainEvent → Bool
  | ChainEvent.cacheStore _ => true
  | _ => false

/-- The settled result of the chain, starting at attempt `n` with `left`
retry attempts remaining (`left = retryCount - n`; the source's test
`retryAttempt < retryCount` is `left > 0`): retry while attempts remain, then
propagate the last error.  Structural recursion on `left`. -/
def runAttemptsAux (left : Nat) (oracle : Nat → Except JVal JVal) (n : Nat) :
    Except JVal JVal :=
  match left, oracle n with
  | _, Except.ok d => Except.ok d
  | 0, Except.error e => Except.error e
  | left' + 1, Except.error _ => runAttemptsAux left' oracle (n + 1)

/-- The settled result of the chain started at attempt `n`. -/
def runAttempts (retryCount : Nat) (oracle : Nat → Except JVal JVal)
    (n : Nat) : Except JVal JVal :=
  runAttemptsAux (retryCount - n) oracle n

/-- The event trace of attempt `n` of the chain, with `left = retryCount - n`
attempts remaining after it.  Successful responses are cached only for GET;
the `finally` delete fires at attempt `n` exactly when
`n = retryCount ∨ n = 0`. -/
def chainTraceAux (left : Nat) (method : String) (retryCount retryDelay : Nat)
    (oracle : Nat → Except JVal JVal) (n : Nat) : List ChainEvent :=
  match left, oracle n with
  | _, Except.ok d =>
      [ChainEvent.fetch n]
        ++ (if method = "GET" then [ChainEvent.cacheStore n] else [])
        ++ (if n = retryCount ∨ n = 0 then [ChainEvent.pendingDelete n] else [])
        ++ [ChainEvent.settle (Except.ok d)]
  | 0, Except.error e =>
      [ChainEvent.fetch n]
        ++ (if n = retryCount ∨ n = 0 then [ChainEvent.pendingDelete n] else [])
        ++ [ChainEvent.settle (Except.error e)]
  | left' + 1, Except.error _ =>
      [ChainEvent.fetch n, ChainEvent.retryWait n (retryDelay * (n + 1))]
        ++ (if n = retryCount ∨ n = 0 then [ChainEvent.pendingDelete n] else [])
        ++ chainTraceAux left' method retryCount retryDelay oracle (n + 1)

/-- The ordered event trace of the whole `makeRequest` chain (started at
attempt 0). -/
def chainTrace (method : String) (retryCount retryDelay : Nat)
    (oracle : Nat → Except JVal JVal) (n : Nat) : List ChainEvent :=
  chainTraceAux (retryCount - n) method retryCount retryDelay oracle n

/-- Everything after the first `pendingDelete` of a trace: the part of the
chain during which the pending-map entry for the key is already gone. -/
def afterFirstDelete : List ChainEvent → List ChainEvent
  | [] => []
  | ChainEvent.pendingDelete _ :: rest => rest
  | _ :: rest => afterFirstDelete rest

end RequestManager

namespace ConnectionProber

/-! ### The connection prober of `src/utils/supabase.js`

The probe issues a query against the `resources` table; on an unexpected
error or an exception it falls back to a query against a sentinel table, with
a further auth-API fallback for 404-class errors.  Each backend interaction
is abstracted by its outcome. -/

/-- The structured error object a Supabase query can resolve with. -/
structure SupabaseError where
  code : Option String
  status : Option Nat
deriving Repr, DecidableEq

/-- Outcome of one awaited backend query: resolved without error, resolved
with an error object, or threw. -/
inductive QueryOutcome where
  | ok
  | err (e : SupabaseError)
  | exn
deriving Repr, DecidableEq

/-- Outcomes of the (at most three) backend interactions one probe run can
perform. `authSessionOk = false` means `supabase.auth.getSession()` threw. -/
structure ProbeOracle where
  resourcesQuery : QueryOutcome
  dummyQuery : QueryOutcome
  authSessionOk : Bool
deriving Repr, DecidableEq

/-- The module-level `connectionStatus` singleton. -/
structure ConnectionStatus where
  lastChecked : Nat
  isConnected : Option Bool
  checkInProgress : Bool
deriving Repr, DecidableEq

/-- A terminal branch of the probe: record the boolean, update `lastChecked`
to the probe-start time `now`, and (the `finally`) clear `checkInProgress`. -/
def probeFinish (cs : ConnectionStatus) (b : Bool) (now : Nat) :
    Bool × ConnectionStatus :=
  (b, { cs with isConnected := some b, lastChecked := now,
                checkInProgress := false })

/-- The fallback part of the probe: the `_dummy_query_for_connection_test_`
query, the 404 → auth-API re-check, the `if (error)` failure branch, the
"dummy table exists" success branch, and the outer `catch` for an exception
from the dummy query itself. -/
def probeFallback (cs : ConnectionStatus) (now : Nat) (o : ProbeOracle) :
    Bool × ConnectionStatus :=
  match o.dummyQuery with
  | QueryOutcome.exn => probeFinish cs false now
  | QueryOutcome.ok => probeFinish cs true now
  | QueryOutcome.err e =>
      if e.code = some "42P01" then probeFinish cs true now
      else if e.status = some 404 ∨ e.code = some "404" then
        if o.authSessionOk then probeFinish cs true now
        else probeFinish cs false now
      else probeFinish cs false now

/-- The probe body of `checkSupabaseConnection` (the code between marking
`checkInProgress` and the `finally`): try the `resources` query first — a
success or a "relation does not exist" (42P01) error both mean connectivity —
otherwise fall back to the sentinel query.  Total by construction: every
branch, exceptions included, resolves to a boolean. -/
def probeBody (cs : ConnectionStatus) (now : Nat) (o : ProbeOracle) :
    Bool × ConnectionStatus :=
  match o.resourcesQuery with
  | QueryOutcome.ok => probeFinish cs true now
  | QueryOutcome.err e =>
      if e.code = some "42P01" then probeFinish cs true now
      else probeFallback cs now o
  | QueryOutcome.exn => probeFallback cs now o

/-- What the synchronous front of `checkSupabaseConnection` decides. -/
inductive CheckOutcome where
  | notBrowser
  | waitForInProgress
  | cachedResult (b : Option Bool)
  | runProbe
deriving Repr, DecidableEq

/-- The front of `checkSupabaseConnection(forceCheck)`: the browser guard,
the single-flight wait on `checkInProgress`, and the 5-minute result cache;
otherwise the caller marks `checkInProgress` and runs `probeBody`. -/
def checkFront (cs : ConnectionStatus) (forceCheck : Bool) (now : Nat)
    (isBrowser : Bool) : CheckOutcome :=
  if isBrowser = false then CheckOutcome.notBrowser
  else if cs.checkInProgress then CheckOutcome.waitForInProgress
  else if forceCheck = false ∧ now - cs.lastChecked < 5 * 60 * 1000 ∧
      cs.isConnected ≠ none then
    CheckOutcome.cachedResult cs.isConnected
  else CheckOutcome.runProbe

end ConnectionProber

/-! ### Concrete states and oracles used in scenarios and witnesses

The multi-step scenarios below re-trace concrete executions: each state is
the literal value the previous step computes, so every step equality is a
kernel computation. -/

namespace RequestManager

/-- The initial module state: empty cache, empty pending map, fresh tracker. -/
def emptyRM : RMState := ⟨[], [], ⟨[], 0⟩, 0⟩

/-- A plain GET request with all defaults. -/
def gOpts : RequestOptions := {}

/-- The same GET request with `bypassCache: true`. -/
def bOpts : RequestOptions := { gOpts with bypassCache := true }

/-- A low-priority GET request with all other defaults. -/
def lowOpts : RequestOptions := { priority := "low" }

/-- The cache key of `gOpts` (and `bOpts`, `lowOpts`) at endpoint `/r`. -/
def rKey : String := cacheKeyFor "/r" gOpts

/-- A POST request (normal priority). -/
def pOptsN : RequestOptions := { method := "POST", body := JVal.obj [("x", JVal.num 1)] }

/-- The same POST request with low priority (same cache key). -/
def pOptsLow : RequestOptions := { pOptsN with priority := "low" }

/-- The cache key of the POST request at endpoint `/r`. -/
def pKey : String := cacheKeyFor "/r" pOptsN

/-- A transport that fails on the first attempt and succeeds on retry. -/
def c1Oracle : Nat → Except JVal JVal :=
  fun n => if n = 0 then Except.error (JVal.str "neterr") else Except.ok (JVal.str "data")

/-- A transport that fails once and then succeeds (used with retryCount 1). -/
def c2Oracle : Nat → Except JVal JVal :=
  fun n => if n = 0 then Except.error (JVal.str "boom") else Except.ok (JVal.str "v")

/-- A transport that always succeeds. -/
def okOracle : Nat → Except JVal JVal := fun _ => Except.ok (JVal.str "v")

/-- State after one GET call to `/r` at time 0 started a request. -/
def s1Started : RMState :=
  ⟨[], [(rKey, 0)], ⟨[("/r", ⟨1, [0], false, 0⟩)], 0⟩, 1⟩

/-- State after that request succeeded with `"v1"` at time 0. -/
def c3S2 : RMState :=
  ⟨[(rKey, ⟨JVal.str "v1", 0⟩)], [], ⟨[("/r", ⟨1, [0], false, 0⟩)], 0⟩, 1⟩

/-- State after a further `bypassCache` GET call at time 1 started a second
request while the cached entry is still present. -/
def c3S3 : RMState :=
  ⟨[(rKey, ⟨JVal.str "v1", 0⟩)], [(rKey, 1)], ⟨[("/r", ⟨2, [0, 1], false, 0⟩)], 0⟩, 2⟩

/-- State after a GET call at time 300000 found the entry expired, deleted
it, and joined the in-flight request (tracker cleanup also ran). -/
def c3S4 : RMState :=
  ⟨[], [(rKey, 1)], ⟨[("/r", ⟨3, [300000], false, 0⟩)], 300000⟩, 2⟩

/-- A state holding a fresh cache entry for `rKey` (for the C3 witness). -/
def c3WSt : RMState := ⟨[(rKey, ⟨JVal.str "w", 0⟩)], [], ⟨[], 0⟩, 0⟩

/-- A state with a pending GET request registered for `rKey`. -/
def c1WSt : RMState := ⟨[], [(rKey, 5)], ⟨[], 0⟩, 9⟩

/-- A state with a pending POST request registered for `pKey`. -/
def c10WSt : RMState := ⟨[], [(pKey, 7)], ⟨[], 0⟩, 9⟩

/-- A state whose tracker has `/r` marked throttled (for the C4 witness). -/
def thrRM : RMState := ⟨[], [], ⟨[("/r", ⟨11, [], true, 6010⟩)], 0⟩, 5⟩

/-- Mid-scenario state for the C5 run: `"v"` cached for `rKey` at 6000, no
pending request, and `ts` tracked calls to `/r`. -/
def c5Mid (ts : List Nat) : RMState :=
  ⟨[(rKey, ⟨JVal.str "v", 6000⟩)], [], ⟨[("/r", ⟨ts.length, ts, false, 0⟩)], 0⟩, 1⟩

/-- The C5 state after the 11th call in one second marked `/r` throttled. -/
def c5Throttled : RMState :=
  ⟨[(rKey, ⟨JVal.str "v", 6000⟩)], [],
   ⟨[("/r", ⟨11, [6000, 6001, 6002, 6003, 6004, 6005, 6006, 6007, 6008, 6009, 6010],
       true, 6010⟩)], 0⟩, 1⟩

/-- Mid-scenario state for the C10 run: a POST in flight for `pKey` and `ts`
tracked calls to `/r`. -/
def c10Mid (ts : List Nat) : RMState :=
  ⟨[], [(pKey, 0)], ⟨[("/r", ⟨ts.length, ts, false, 0⟩)], 0⟩, 1⟩

/-- The C10 state after the 11th duplicate POST in one second marked `/r`
throttled, with the first POST still in flight. -/
def c10Throttled : RMState :=
  ⟨[], [(pKey, 0)],
   ⟨[("/r", ⟨11, [6000, 6001, 6002, 6003, 6004, 6005, 6006, 6007, 6008, 6009, 6010],
       true, 6010⟩)], 0⟩, 1⟩

/-- A cache entry used by the invalidation counterexample. -/
def c7Entry : CacheEntry := ⟨JVal.str "w", 3⟩

end RequestManager

namespace ConnectionProber

/-- Probe outcomes for the C8 counterexample: the `resources` query fails
with an unrelated backend error, the sentinel query fails with a 404, and the
auth-session check succeeds. -/
def c8Oracle : ProbeOracle :=
  ⟨QueryOutcome.err ⟨some "XX000", none⟩, QueryOutcome.err ⟨none, some 404⟩, true⟩

/-- A probe run in which every query succeeds. -/
def okProbe : ProbeOracle := ⟨QueryOutcome.ok, QueryOutcome.ok, true⟩

/-- A connection status with no probe in progress. -/
def c9Cs0 : ConnectionStatus := ⟨0, none, false⟩

end ConnectionProber

/-! ## Theorems -/

namespace RequestManager

/-- Counterexample for C6: two parameter objects that are structurally equal
(the same fields, listed in permuted insertion order) produce different cache
keys, because `generateCacheKey` uses order-sensitive `JSON.stringify`. -/
theorem c6_cache_key_depends_on_insertion_order :
    [("a", JVal.num 1), ("b", JVal.num 2)].Perm
      [("b", JVal.num 2), ("a", JVal.num 1)] ∧
    generateCacheKey "/r" (JVal.obj [("a", JVal.num 1), ("b", JVal.num 2)])
      ≠ generateCacheKey "/r" (JVal.obj [("b", JVal.num 2), ("a", JVal.num 1)]) :=
  ⟨List.Perm.swap ("b", JVal.num 2) ("a", JVal.num 1) [], by decide⟩

/-- Counterexample for C7: the key generated for endpoint `/resources2`
begins with the string `/resources`, yet `clearRequestCache "/resources"`
does not remove it — the source matches `` `${endpoint}:` `` (endpoint plus a
colon), not the bare endpoint string. -/
theorem c7_counterexample :
    jsStartsWith (cacheKeyFor "/resources2" gOpts) "/resources" = true ∧
    clearRequestCache [(cacheKeyFor "/resources2" gOpts, c7Entry)] (some "/resources")
      = [(cacheKeyFor "/resources2" gOpts, c7Entry)] :=
  ⟨rfl, rfl⟩

/-- Counterexample for C2: with `retryCount = 1` and a transport that fails
once and then succeeds, the pending-map delete fires at the end of attempt 0
(after the first retry wait) while the chain still has a fetch ahead of it —
the entry does not stay until the terminal outcome. -/
theorem c2_counterexample :
    chainTrace "GET" 1 1000 c2Oracle 0 =
      [ChainEvent.fetch 0, ChainEvent.retryWait 0 1000, ChainEvent.pendingDelete 0,
       ChainEvent.fetch 1, ChainEvent.cacheStore 1, ChainEvent.pendingDelete 1,
       ChainEvent.settle (Except.ok (JVal.str "v"))] ∧
    (afterFirstDelete (chainTrace "GET" 1 1000 c2Oracle 0)).any ChainEvent.isFetch
      = true :=
  ⟨rfl, rfl⟩

/-- Counterexample for C1: two concurrent identical GET calls are deduplicated
into one chain (the second call joins promise 0), but with the default
`retryCount = 2` and a transport that fails once, that single chain performs
two fetch invocations — not "exactly one" — before both callers settle with
the same value. -/
theorem c1_counterexample :
    optimizedRequestSync emptyRM "/r" gOpts 0 = (CallOutcome.started 0, s1Started) ∧
    (optimizedRequestSync s1Started "/r" gOpts 0).1 = CallOutcome.dedup 0 ∧
    (chainTrace gOpts.method gOpts.retryCount gOpts.retryDelay c1Oracle 0).countP
      ChainEvent.isFetch = 2 ∧
    runAttempts gOpts.retryCount c1Oracle 0 = Except.ok (JVal.str "data") :=
  ⟨rfl, rfl, rfl, rfl⟩

/-- Counterexample for C3: a reachable state in which a GET call finds its
cache entry expired, deletes it, but joins an identical in-flight request
instead of invoking the transport again (no new request id is allocated). -/
theorem c3_counterexample :
    optimizedRequestSync emptyRM "/r" gOpts 0 = (CallOutcome.started 0, s1Started) ∧
    completeChainSuccess s1Started rKey (JVal.str "v1") 0 = c3S2 ∧
    optimizedRequestSync c3S2 "/r" bOpts 1 = (CallOutcome.started 1, c3S3) ∧
    effectiveCacheTTL "/r" gOpts.cacheTTL ≤ 300000 - (0 : Nat) ∧
    optimizedRequestSync c3S3 "/r" gOpts 300000 = (CallOutcome.dedup 1, c3S4) ∧
    c3S4.requestCache = [] ∧
    c3S4.nextId = c3S3.nextId :=
  ⟨rfl, rfl, rfl, by decide, rfl, rfl, rfl⟩

/-- Counterexample for C5: a reachable execution — one cached GET followed by
ten cache-hit calls inside one second throttles `/r`; the next call is served
the stale cache value by the throttle gate and returns with the module state
(tracker included) completely unchanged, so the traffic-tracking step did not
execute for it (running `track` would have changed the tracker). -/
theorem c5_counterexample :
    optimizedRequestSync emptyRM "/r" gOpts 6000
      = (CallOutcome.started 0,
         ⟨[], [(rKey, 0)], ⟨[("/r", ⟨1, [6000], false, 0⟩)], 0⟩, 1⟩) ∧
    completeChainSuccess
        ⟨[], [(rKey, 0)], ⟨[("/r", ⟨1, [6000], false, 0⟩)], 0⟩, 1⟩
        rKey (JVal.str "v") 6000 = c5Mid [6000] ∧
    optimizedRequestSync (c5Mid [6000]) "/r" gOpts 6001
      = (CallOutcome.cacheHit (JVal.str "v"), c5Mid [6000, 6001]) ∧
    optimizedRequestSync (c5Mid [6000, 6001]) "/r" gOpts 6002
      = (CallOutcome.cacheHit (JVal.str "v"), c5Mid [6000, 6001, 6002]) ∧
    optimizedRequestSync (c5Mid [6000, 6001, 6002]) "/r" gOpts 6003
      = (CallOutcome.cacheHit (JVal.str "v"), c5Mid [6000, 6001, 6002, 6003]) ∧
    optimizedRequestSync (c5Mid [6000, 6001, 6002, 6003]) "/r" gOpts 6004
      = (CallOutcome.cacheHit (JVal.str "v"), c5Mid [6000, 6001, 6002, 6003, 6004]) ∧
    optimizedRequestSync (c5Mid [6000, 6001, 6002, 6003, 6004]) "/r" gOpts 6005
      = (CallOutcome.cacheHit (JVal.str "v"),
         c5Mid [6000, 6001, 6002, 6003, 6004, 6005]) ∧
    optimizedRequestSync (c5Mid [6000, 6001, 6002, 6003, 6004, 6005]) "/r" gOpts 6006
      = (CallOutcome.cacheHit (JVal.str "v"),
         c5Mid [6000, 6001, 6002, 6003, 6004, 6005, 6006]) ∧
    optimizedRequestSync (c5Mid [6000, 6001, 6002, 6003, 6004, 6005, 6006])
        "/r" gOpts 6007
      = (CallOutcome.cacheHit (JVal.str "v"),
         c5Mid [6000, 6001, 6002, 6003, 6004, 6005, 6006, 6007]) ∧
    optimizedRequestSync (c5Mid [6000, 6001, 6002, 6003, 6004, 6005, 6006, 6007])
        "/r" gOpts 6008
      = (CallOutcome.cacheHit (JVal.str "v"),
         c5Mid [6000, 6001, 6002, 6003, 6004, 6005, 6006, 6007, 6008]) ∧
    optimizedRequestSync
        (c5Mid [6000, 6001, 6002, 6003, 6004, 6005, 6006, 6007, 6008])
        "/r" gOpts 6009
      = (CallOutcome.cacheHit (JVal.str "v"),
         c5Mid [6000, 6001, 6002, 6003, 6004, 6005, 6006, 6007, 6008, 6009]) ∧
    optimizedRequestSync
        (c5Mid [6000, 6001, 6002, 6003, 6004, 6005, 6006, 6007, 6008, 6009])
        "/r" gOpts 6010
      = (CallOutcome.cacheHit (JVal.str "v"), c5Throttled) ∧
    optimizedRequestSync c5Throttled "/r" gOpts 6011
      = (CallOutcome.staleReturn (JVal.str "v"), c5Throttled) ∧
    (track c5Throttled.tracker "/r" 6011).2 ≠ c5Throttled.tracker :=
  ⟨rfl, rfl, rfl, rfl, rfl, rfl, rfl, rfl, rfl, rfl, rfl, rfl, rfl, by decide⟩

/-- Counterexample for C10: eleven duplicate POST calls inside one second are
deduplicated onto one in-flight chain but also throttle `/r`; a twelfth call
with the same cache key and `priority: low`, arriving while the first call's
promise is still registered as pending, is rejected with the throttled error
instead of receiving the pending promise. -/
theorem c10_counterexample :
    optimizedRequestSync emptyRM "/r" pOptsN 6000
      = (CallOutcome.started 0, c10Mid [6000]) ∧
    optimizedRequestSync (c10Mid [6000]) "/r" pOptsN 6001
      = (CallOutcome.dedup 0, c10Mid [6000, 6001]) ∧
    optimizedRequestSync (c10Mid [6000, 6001]) "/r" pOptsN 6002
      = (CallOutcome.dedup 0, c10Mid [6000, 6001, 6002]) ∧
    optimizedRequestSync (c10Mid [6000, 6001, 6002]) "/r" pOptsN 6003
      = (CallOutcome.dedup 0, c10Mid [6000, 6001, 6002, 6003]) ∧
    optimizedRequestSync (c10Mid [6000, 6001, 6002, 6003]) "/r" pOptsN 6004
      = (CallOutcome.dedup 0, c10Mid [6000, 6001, 6002, 6003, 6004]) ∧
    optimizedRequestSync (c10Mid [6000, 6001, 6002, 6003, 6004]) "/r" pOptsN 6005
      = (CallOutcome.dedup 0, c10Mid [6000, 6001, 6002, 6003, 6004, 6005]) ∧
    optimizedRequestSync (c10Mid [6000, 6001, 6002, 6003, 6004, 6005])
        "/r" pOptsN 6006
      = (CallOutcome.dedup 0, c10Mid [6000, 6001, 6002, 6003, 6004, 6005, 6006]) ∧
    optimizedRequestSync (c10Mid [6000, 6001, 6002, 6003, 6004, 6005, 6006])
        "/r" pOptsN 6007
      = (CallOutcome.dedup 0,
         c10Mid [6000, 6001, 6002, 6003, 6004, 6005, 6006, 6007]) ∧
    optimizedRequestSync (c10Mid [6000, 6001, 6002, 6003, 6004, 6005, 6006, 6007])
        "/r" pOptsN 6008
      = (CallOutcome.dedup 0,
         c10Mid [6000, 6001, 6002, 6003, 6004, 6005, 6006, 6007, 6008]) ∧
    optimizedRequestSync
        (c10Mid [6000, 6001, 6002, 6003, 6004, 6005, 6006, 6007, 6008])
        "/r" pOptsN 6009
      = (CallOutcome.dedup 0,
         c10Mid [6000, 6001, 6002, 6003, 6004, 6005, 6006, 6007, 6008, 6009]) ∧
    optimizedRequestSync
        (c10Mid [6000, 6001, 6002, 6003, 6004, 6005, 6006, 6007, 6008, 6009])
        "/r" pOptsN 6010
      = (CallOutcome.dedup 0, c10Throttled) ∧
    alookup c10Throttled.pendingRequests pKey = some 0 ∧
    cacheKeyFor "/r" pOptsLow = pKey ∧
    optimizedRequestSync c10Throttled "/r" pOptsLow 6011
      = (CallOutcome.throttledReject, c10Throttled) ∧
    (optimizedRequestSync c10Throttled "/r" pOptsLow 6011).1 ≠ CallOutcome.dedup 0 := by
  refine ⟨rfl, rfl, rfl, rfl, rfl, rfl, rfl, rfl, rfl, rfl, rfl, rfl, rfl, rfl, ?_⟩
  have h : (optimizedRequestSync c10Throttled "/r" pOptsLow 6011).1
      = CallOutcome.throttledReject := rfl
  rw [h]
  simp

end RequestManager

namespace ConnectionProber

/-- Every probe run ends in a `probeFinish`: the returned boolean is
recorded, `lastChecked` is set to the probe-start time, and the in-progress
flag is cleared. -/
theorem probeBody_eq_finish (cs : ConnectionStatus) (now : Nat) (o : ProbeOracle) :
    probeBody cs now o = probeFinish cs (probeBody cs now o).1 now := by
  rcases o with ⟨rq, dq, auth⟩
  cases rq <;> cases dq <;>
    simp only [probeBody, probeFallback, probeFinish] <;>
    first
      | rfl
      | (split_ifs <;> rfl)

/-- Counterexample for C8: the `resources` probe query fails with an
unrelated backend error (code `XX000`, not `42P01`), the sentinel query fails
with a 404-class error (again not `42P01`), yet `checkSupabaseConnection`
resolves `true` because the auth-session fallback succeeds — the claim says
any non-42P01 backend error must resolve `false`. -/
theorem c8_counterexample :
    c8Oracle.resourcesQuery = QueryOutcome.err ⟨some "XX000", none⟩ ∧
    some "XX000" ≠ some "42P01" ∧
    c8Oracle.dummyQuery = QueryOutcome.err ⟨none, some 404⟩ ∧
    (none : Option String) ≠ some "42P01" ∧
    (probeBody ⟨0, none, true⟩ 5 c8Oracle).1 = true :=
  ⟨rfl, by decide, rfl, by decide, rfl⟩

/-- Claim C8 (amended): every probe run resolves to a boolean and never
rejects (the embedding is total: the outer catch turns any escaping exception
into `false`), and every exit path is literally a `probeFinish` step, so in
every terminal branch `isConnected` records that boolean, `lastChecked` is
updated to the probe-start time, and `checkInProgress` is cleared; the result
is `true` exactly when the `resources` query succeeds or fails with code
42P01, or — the `resources` query having thrown or failed with a different
code — the fallback sentinel query succeeds, fails with 42P01, or fails with
a 404-class error while the auth-session check succeeds. -/
theorem c8_probe_resolution (cs : ConnectionStatus) (now : Nat) (o : ProbeOracle) :
    probeBody cs now o = probeFinish cs (probeBody cs now o).1 now ∧
    (probeBody cs now o).2.checkInProgress = false ∧
    (probeBody cs now o).2.lastChecked = now ∧
    (probeBody cs now o).2.isConnected = some (probeBody cs now o).1 ∧
    ((probeBody cs now o).1 = true ↔
      (o.resourcesQuery = QueryOutcome.ok ∨
       (∃ e, o.resourcesQuery = QueryOutcome.err e ∧ e.code = some "42P01") ∨
       ((o.resourcesQuery = QueryOutcome.exn ∨
         ∃ e, o.resourcesQuery = QueryOutcome.err e ∧ e.code ≠ some "42P01") ∧
        (o.dummyQuery = QueryOutcome.ok ∨
         ∃ e, o.dummyQuery = QueryOutcome.err e ∧
           (e.code = some "42P01" ∨
            ((e.status = some 404 ∨ e.code = some "404") ∧
             o.authSessionOk = true)))))) := by
  refine ⟨probeBody_eq_finish cs now o, ?_, ?_, ?_, ?_⟩
  · rw [probeBody_eq_finish cs now o]; rfl
  · rw [probeBody_eq_finish cs now o]; rfl
  · rw [probeBody_eq_finish cs now o]; rfl
  · rcases o with ⟨rq, dq, auth⟩
    cases rq <;> cases dq <;>
      simp only [probeBody, probeFallback, probeFinish] <;>
      (try split_ifs) <;> simp_all

/-- Claim C9: with no probe in progress, a forced `checkSupabaseConnection`
call runs the probe; any concurrent call that observes the in-progress flag
waits instead of starting a second probe; when the probe finishes the flag is
down and `isConnected` holds exactly the boolean the probe produced, which is
what the waiting caller then returns. -/
theorem c9_single_flight (cs0 : ConnectionStatus) (o : ProbeOracle) (tA tB : Nat)
    (h : cs0.checkInProgress = false) :
    checkFront cs0 true tA true = CheckOutcome.runProbe ∧
    (∀ csMid : ConnectionStatus, csMid.checkInProgress = true →
      checkFront csMid true tB true = CheckOutcome.waitForInProgress) ∧
    (probeBody { cs0 with checkInProgress := true } tA o).2.checkInProgress = false ∧
    (probeBody { cs0 with checkInProgress := true } tA o).2.isConnected
      = some (probeBody { cs0 with checkInProgress := true } tA o).1 := by
  refine ⟨?_, ?_, ?_, ?_⟩
  · simp [checkFront, h]
  · intro csMid hc
    simp [checkFront, hc]
  · rw [probeBody_eq_finish]; rfl
  · rw [probeBody_eq_finish]
    rfl

/-- Witness for C9 at a concrete state and a concrete all-ok probe. -/
theorem c9_witness :
    checkFront c9Cs0 true 50 true = CheckOutcome.runProbe ∧
    checkFront { c9Cs0 with checkInProgress := true } true 60 true
      = CheckOutcome.waitForInProgress ∧
    (probeBody { c9Cs0 with checkInProgress := true } 50 okProbe).2.checkInProgress
      = false ∧
    (probeBody { c9Cs0 with checkInProgress := true } 50 okProbe).2.isConnected
      = some (probeBody { c9Cs0 with checkInProgress := true } 50 okProbe).1 := by
  have h := c9_single_flight c9Cs0 okProbe 50 60 rfl
  exact ⟨h.1, h.2.1 _ rfl, h.2.2.1, h.2.2.2⟩

end ConnectionProber

namespace RequestManager

/-- The part of `optimizedRequest` past the throttle gate never produces the
throttled rejection. -/
theorem proceedPhase_ne_throttledReject (st : RMState) (e : String)
    (o : RequestOptions) (key : String) (ttl now : Nat) :
    (proceedPhase st e o key ttl now).1 ≠ CallOutcome.throttledReject := by
  unfold proceedPhase pendingCheck
  dsimp only
  split
  · split
    · split
      · simp
      · split <;> simp
    · split <;> simp
  · split <;> simp

/-- The part of `optimizedRequest` past the throttle gate always performs the
tracking step (and nothing after it touches the tracker). -/
theorem proceedPhase_tracker (st : RMState) (e : String) (o : RequestOptions)
    (key : String) (ttl now : Nat) :
    (proceedPhase st e o key ttl now).2.tracker = (track st.tracker e now).2 := by
  unfold proceedPhase pendingCheck
  dsimp only
  split
  · split
    · split
      · rfl
      · split <;> rfl
    · split <;> rfl
  · split <;> rfl

/-- When the endpoint is not throttled, the throttle gate lets the call
proceed. -/
theorem throttleGate_proceed_of_not_throttled (st : RMState) (e key p : String)
    (h : trackerIsThrottled st.tracker e = false) :
    throttleGate st e key p = GateResult.proceed := by
  unfold throttleGate
  rw [if_neg]
  rintro ⟨h1, -⟩
  rw [h] at h1
  exact absurd h1 (by decide)

/-- A high-priority call always passes the throttle gate. -/
theorem throttleGate_proceed_of_high (st : RMState) (e key : String) :
    throttleGate st e key "high" = GateResult.proceed := by
  unfold throttleGate
  rw [if_neg]
  rintro ⟨-, h2⟩
  exact h2 rfl

/-- A non-GET chain never stores into the cache. -/
theorem chainTraceAux_no_cacheStore (method : String) (hm : method ≠ "GET") :
    ∀ (left : Nat) (rc rd : Nat) (oracle : Nat → Except JVal JVal) (n : Nat),
      (chainTraceAux left method rc rd oracle n).any ChainEvent.isCacheStore
        = false := by
  intro left
  induction left with
  | zero =>
      intro rc rd oracle n
      unfold chainTraceAux
      cases ho : oracle n with
      | error e =>
          simp only [List.any_append, List.any_cons, List.any_nil,
            ChainEvent.isCacheStore, Bool.or_false, Bool.false_or]
          split <;> simp [ChainEvent.isCacheStore]
      | ok d =>
          rw [if_neg hm]
          simp only [List.nil_append, List.any_append, List.any_cons,
            List.any_nil, ChainEvent.isCacheStore, Bool.or_false, Bool.false_or]
          split <;> simp [ChainEvent.isCacheStore]
  | succ m ih =>
      intro rc rd oracle n
      unfold chainTraceAux
      cases ho : oracle n with
      | error e =>
          simp only [List.any_append, List.any_cons, List.any_nil,
            ChainEvent.isCacheStore, Bool.or_false, Bool.false_or,
            ih rc rd oracle (n + 1)]
          split <;> simp [ChainEvent.isCacheStore]
      | ok d =>
          rw [if_neg hm]
          simp only [List.nil_append, List.any_append, List.any_cons,
            List.any_nil, ChainEvent.isCacheStore, Bool.or_false, Bool.false_or]
          split <;> simp [ChainEvent.isCacheStore]

/-- A GET chain that settles successfully has stored its response in the
cache. -/
theorem chainTraceAux_cacheStore_of_ok :
    ∀ (left : Nat) (rc rd : Nat) (oracle : Nat → Except JVal JVal) (n : Nat)
      (d : JVal), runAttemptsAux left oracle n = Except.ok d →
      (chainTraceAux left "GET" rc rd oracle n).any ChainEvent.isCacheStore
        = true := by
  intro left
  induction left with
  | zero =>
      intro rc rd oracle n d hok
      unfold runAttemptsAux at hok
      unfold chainTraceAux
      cases ho : oracle n with
      | error e => rw [ho] at hok; exact absurd hok (by simp)
      | ok d2 => simp [ChainEvent.isCacheStore]
  | succ m ih =>
      intro rc rd oracle n d hok
      unfold runAttemptsAux at hok
      unfold chainTraceAux
      cases ho : oracle n with
      | error e =>
          rw [ho] at hok
          have hrec := ih rc rd oracle (n + 1) d hok
          simp only [List.any_append, List.any_cons, List.any_nil,
            ChainEvent.isCacheStore, hrec, Bool.or_true]
      | ok d2 => simp [ChainEvent.isCacheStore]

/-- A chain whose first attempt succeeds performs exactly one fetch. -/
theorem chainTrace_one_fetch (method : String) (rc rd : Nat)
    (oracle : Nat → Except JVal JVal) (d : JVal) (h0 : oracle 0 = Except.ok d) :
    (chainTrace method rc rd oracle 0).countP ChainEvent.isFetch = 1 := by
  unfold chainTrace
  rw [Nat.sub_zero]
  cases rc with
  | zero =>
      unfold chainTraceAux
      rw [h0]
      simp only [List.countP_append, List.countP_cons, List.countP_nil,
        ChainEvent.isFetch]
      split <;> split <;> simp_all [ChainEvent.isFetch, List.countP_cons]
  | succ m =>
      unfold chainTraceAux
      rw [h0]
      simp only [List.countP_append, List.countP_cons, List.countP_nil,
        ChainEvent.isFetch]
      split <;> split <;> simp_all [ChainEvent.isFetch, List.countP_cons]

end RequestManager

namespace RequestManager

/-- Claim C1 (amended): a second call with the same cache key that reaches
the in-flight check — in particular whenever the endpoint is not throttled
for it and, for a non-bypass GET, no cache entry exists for the key — joins
the registered pending promise: it returns the same promise id, registers no
new request and allocates no new promise, so both callers settle with the
single chain's one outcome; the shared chain performs exactly one fetch when
its first attempt succeeds (and only its own retries otherwise). -/
theorem c1_amended (st : RMState) (e : String) (o : RequestOptions) (pid t2 : Nat)
    (hpend : alookup st.pendingRequests (cacheKeyFor e o) = some pid)
    (hthr : trackerIsThrottled st.tracker e = false)
    (hcache : o.bypassCache = true ∨ o.method ≠ "GET" ∨
      alookup st.requestCache (cacheKeyFor e o) = none) :
    (optimizedRequestSync st e o t2).1 = CallOutcome.dedup pid ∧
    (optimizedRequestSync st e o t2).2.pendingRequests = st.pendingRequests ∧
    (optimizedRequestSync st e o t2).2.nextId = st.nextId ∧
    (∀ (oracle : Nat → Except JVal JVal) (d : JVal), oracle 0 = Except.ok d →
      (chainTrace o.method o.retryCount o.retryDelay oracle 0).countP
        ChainEvent.isFetch = 1) := by
  have hgate := throttleGate_proceed_of_not_throttled st e (cacheKeyFor e o)
    o.priority hthr
  have hcall : optimizedRequestSync st e o t2
      = proceedPhase st e o (cacheKeyFor e o) (effectiveCacheTTL e o.cacheTTL) t2 := by
    simp only [optimizedRequestSync, hgate]
  have hpp : proceedPhase st e o (cacheKeyFor e o) (effectiveCacheTTL e o.cacheTTL) t2
      = (CallOutcome.dedup pid, { st with tracker := (track st.tracker e t2).2 }) := by
    unfold proceedPhase pendingCheck
    dsimp only
    by_cases hbc : o.bypassCache = false ∧ o.method = "GET"
    · have hlook : alookup st.requestCache (cacheKeyFor e o) = none := by
        rcases hcache with h | h | h
        · rw [hbc.1] at h; exact absurd h (by decide)
        · exact absurd hbc.2 h
        · exact h
      rw [if_pos hbc]
      simp only [hlook, hpend]
    · rw [if_neg hbc]
      simp only [hpend]
  rw [hcall, hpp]
  refine ⟨rfl, rfl, rfl, ?_⟩
  intro oracle d h0
  exact chainTrace_one_fetch o.method o.retryCount o.retryDelay oracle d h0

/-- Witness for C1 (amended) at a concrete state with promise 5 pending. -/
theorem c1_amended_witness :
    (optimizedRequestSync c1WSt "/r" gOpts 0).1 = CallOutcome.dedup 5 ∧
    (chainTrace gOpts.method gOpts.retryCount gOpts.retryDelay okOracle 0).countP
      ChainEvent.isFetch = 1 := by
  have h := c1_amended c1WSt "/r" gOpts 5 0 rfl rfl (Or.inr (Or.inr rfl))
  exact ⟨h.1, h.2.2.2 okOracle (JVal.str "v") rfl⟩

/-- Claim C10 (amended): deduplication is method-independent — for any
method, POST included, a same-key call that passes the throttle gate (the
endpoint is not throttled for it, or it has high priority) while a request is
pending receives the pending promise and allocates nothing new, so both
callers observe the same outcome; and a chain stores into the cache only when
its method is GET. -/
theorem c10_amended (st : RMState) (e : String) (o : RequestOptions) (pid t2 : Nat)
    (hpend : alookup st.pendingRequests (cacheKeyFor e o) = some pid)
    (hgate : trackerIsThrottled st.tracker e = false ∨ o.priority = "high")
    (hcache : o.method = "GET" → o.bypassCache = true ∨
      alookup st.requestCache (cacheKeyFor e o) = none) :
    (optimizedRequestSync st e o t2).1 = CallOutcome.dedup pid ∧
    (optimizedRequestSync st e o t2).2.nextId = st.nextId ∧
    (∀ oracle : Nat → Except JVal JVal,
      (chainTrace o.method o.retryCount o.retryDelay oracle 0).any
        ChainEvent.isCacheStore = true → o.method = "GET") := by
  have hg : throttleGate st e (cacheKeyFor e o) o.priority = GateResult.proceed := by
    rcases hgate with h | h
    · exact throttleGate_proceed_of_not_throttled st e (cacheKeyFor e o) o.priority h
    · rw [h]
      exact throttleGate_proceed_of_high st e (cacheKeyFor e o)
  have hcall : optimizedRequestSync st e o t2
      = proceedPhase st e o (cacheKeyFor e o) (effectiveCacheTTL e o.cacheTTL) t2 := by
    simp only [optimizedRequestSync, hg]
  have hpp : proceedPhase st e o (cacheKeyFor e o) (effectiveCacheTTL e o.cacheTTL) t2
      = (CallOutcome.dedup pid, { st with tracker := (track st.tracker e t2).2 }) := by
    unfold proceedPhase pendingCheck
    dsimp only
    by_cases hbc : o.bypassCache = false ∧ o.method = "GET"
    · have hlook : alookup st.requestCache (cacheKeyFor e o) = none := by
        rcases hcache hbc.2 with h | h
        · rw [hbc.1] at h; exact absurd h (by decide)
        · exact h
      rw [if_pos hbc]
      simp only [hlook, hpend]
    · rw [if_neg hbc]
      simp only [hpend]
  rw [hcall, hpp]
  refine ⟨rfl, rfl, ?_⟩
  intro oracle hst
  by_cases hm : o.method = "GET"
  · exact hm
  · unfold chainTrace at hst
    rw [chainTraceAux_no_cacheStore o.method hm (o.retryCount - 0) o.retryCount
      o.retryDelay oracle 0] at hst
    exact absurd hst (by decide)

/-- Witness for C10 (amended) at a concrete state with POST promise 7 pending. -/
theorem c10_amended_witness :
    (optimizedRequestSync c10WSt "/r" pOptsN 0).1 = CallOutcome.dedup 7 ∧
    ((chainTrace pOptsN.method pOptsN.retryCount pOptsN.retryDelay okOracle 0).any
      ChainEvent.isCacheStore = true → pOptsN.method = "GET") := by
  have h := c10_amended c10WSt "/r" pOptsN 7 0 rfl (Or.inl rfl)
    (fun hm => absurd hm (by decide))
  exact ⟨h.1, h.2.2 okOracle⟩

/-- Claim C2 (amended): the pending entry is removed when attempt 0
completes.  When the first attempt succeeds or `retryCount = 0`, that is the
terminal outcome: after the first delete nothing remains but the settlement,
so every caller that arrives during the in-flight window joins the chain.
When the first attempt fails with retries remaining, the delete fires right
after the first retry wait — before the second fetch — so callers arriving
during later attempts no longer find the entry. -/
theorem c2_amended (method : String) (rc rd : Nat)
    (oracle : Nat → Except JVal JVal) :
    ((∃ d, oracle 0 = Except.ok d) ∨ rc = 0 →
      afterFirstDelete (chainTrace method rc rd oracle 0)
        = [ChainEvent.settle (runAttempts rc oracle 0)]) ∧
    (∀ er, oracle 0 = Except.error er → 0 < rc →
      ∃ rest, chainTrace method rc rd oracle 0
        = ChainEvent.fetch 0 :: ChainEvent.retryWait 0 (rd * 1) ::
          ChainEvent.pendingDelete 0 :: rest) := by
  constructor
  · intro h
    unfold chainTrace runAttempts
    rw [Nat.sub_zero]
    rcases h with ⟨d, hd⟩ | hrc
    · cases rc with
      | zero =>
          unfold chainTraceAux runAttemptsAux
          rw [hd]
          by_cases hm : method = "GET" <;> simp [hm, afterFirstDelete]
      | succ m =>
          unfold chainTraceAux runAttemptsAux
          rw [hd]
          by_cases hm : method = "GET" <;> simp [hm, afterFirstDelete]
    · subst hrc
      unfold chainTraceAux runAttemptsAux
      cases h0 : oracle 0 with
      | error er => simp [afterFirstDelete]
      | ok d => by_cases hm : method = "GET" <;> simp [hm, afterFirstDelete]
  · intro er he hrc
    unfold chainTrace
    rw [Nat.sub_zero]
    cases rc with
    | zero => omega
    | succ m =>
        unfold chainTraceAux
        rw [he]
        exact ⟨chainTraceAux m method (m + 1) rd oracle 1, by simp⟩

/-- Witness for C2 (amended): a first attempt that succeeds leaves only the
settlement after the (terminal) pending delete. -/
theorem c2_amended_witness :
    afterFirstDelete (chainTrace "GET" 2 1000 okOracle 0)
      = [ChainEvent.settle (runAttempts 2 okOracle 0)] :=
  (c2_amended "GET" 2 1000 okOracle).1 (Or.inl ⟨JVal.str "v", rfl⟩)

end RequestManager

namespace RequestManager

/-- Claim C3 (amended): for a GET call without `bypassCache` that passes the
throttle gate and finds a cache entry: if the entry's age is below the
effective TTL the cached value is returned and nothing else changes (no
request starts); if it has reached the TTL the entry is deleted at that
lookup and then a new transport request starts — whose successful response is
stored back in the cache — unless an identical-key request is already
pending, in which case the caller joins it instead of invoking the transport
again. -/
theorem c3_amended (st : RMState) (e : String) (o : RequestOptions) (now : Nat)
    (entry : CacheEntry)
    (hm : o.method = "GET") (hb : o.bypassCache = false)
    (hg : throttleGate st e (cacheKeyFor e o) o.priority = GateResult.proceed)
    (hc : alookup st.requestCache (cacheKeyFor e o) = some entry) :
    (now - entry.timestamp < effectiveCacheTTL e o.cacheTTL →
      (optimizedRequestSync st e o now).1 = CallOutcome.cacheHit entry.data ∧
      (optimizedRequestSync st e o now).2.requestCache = st.requestCache ∧
      (optimizedRequestSync st e o now).2.pendingRequests = st.pendingRequests ∧
      (optimizedRequestSync st e o now).2.nextId = st.nextId) ∧
    (effectiveCacheTTL e o.cacheTTL ≤ now - entry.timestamp →
      (optimizedRequestSync st e o now).2.requestCache
        = aerase st.requestCache (cacheKeyFor e o) ∧
      (alookup st.pendingRequests (cacheKeyFor e o) = none →
        (optimizedRequestSync st e o now).1 = CallOutcome.started st.nextId ∧
        (optimizedRequestSync st e o now).2.pendingRequests
          = aset st.pendingRequests (cacheKeyFor e o) st.nextId ∧
        (optimizedRequestSync st e o now).2.nextId = st.nextId + 1) ∧
      (∀ pid, alookup st.pendingRequests (cacheKeyFor e o) = some pid →
        (optimizedRequestSync st e o now).1 = CallOutcome.dedup pid ∧
        (optimizedRequestSync st e o now).2.pendingRequests = st.pendingRequests ∧
        (optimizedRequestSync st e o now).2.nextId = st.nextId)) ∧
    (∀ (oracle : Nat → Except JVal JVal) (d : JVal),
      runAttempts o.retryCount oracle 0 = Except.ok d →
      (chainTrace o.method o.retryCount o.retryDelay oracle 0).any
        ChainEvent.isCacheStore = true) := by
  have hcall : optimizedRequestSync st e o now
      = proceedPhase st e o (cacheKeyFor e o) (effectiveCacheTTL e o.cacheTTL) now := by
    simp only [optimizedRequestSync, hg]
  refine ⟨?_, ?_, ?_⟩
  · intro hfresh
    rw [hcall]
    unfold proceedPhase pendingCheck
    dsimp only
    rw [if_pos ⟨hb, hm⟩]
    simp only [hc]
    rw [if_pos hfresh]
    exact ⟨rfl, rfl, rfl, rfl⟩
  · intro hexp
    rw [hcall]
    unfold proceedPhase pendingCheck
    dsimp only
    rw [if_pos ⟨hb, hm⟩]
    simp only [hc]
    rw [if_neg (by omega)]
    refine ⟨?_, ?_, ?_⟩
    · cases hp : alookup st.pendingRequests (cacheKeyFor e o) <;> simp only [hp]
    · intro hp
      simp only [hp]
      refine ⟨?_, ?_, ?_⟩ <;> trivial
    · intro pid hp
      simp only [hp]
      refine ⟨?_, ?_, ?_⟩ <;> trivial
  · intro oracle d hok
    rw [hm]
    unfold runAttempts at hok
    exact chainTraceAux_cacheStore_of_ok (o.retryCount - 0) o.retryCount
      o.retryDelay oracle 0 d hok

/-- Witness for C3 (amended): a fresh entry is served from the cache. -/
theorem c3_amended_witness :
    (optimizedRequestSync c3WSt "/r" gOpts 5).1
      = CallOutcome.cacheHit (JVal.str "w") := by
  have h := c3_amended c3WSt "/r" gOpts 5 ⟨JVal.str "w", 0⟩ rfl rfl rfl rfl
  exact (h.1 (by decide)).1

/-- Claim C5 (amended): the traffic-tracking step runs exactly on the calls
that pass the throttle gate — cache hits, dedup joins and new requests all
track — while the throttled stale-cache return and the throttled rejection
return with the module state, tracker included, untouched (and the throttled
normal-priority path suspends for 2 seconds before tracking at resumption). -/
theorem c5_amended (st : RMState) (e : String) (o : RequestOptions) (now : Nat) :
    (throttleGate st e (cacheKeyFor e o) o.priority = GateResult.proceed →
      (optimizedRequestSync st e o now).2.tracker = (track st.tracker e now).2) ∧
    (∀ d, throttleGate st e (cacheKeyFor e o) o.priority = GateResult.staleReturn d →
      optimizedRequestSync st e o now = (CallOutcome.staleReturn d, st)) ∧
    (throttleGate st e (cacheKeyFor e o) o.priority = GateResult.throttledReject →
      optimizedRequestSync st e o now = (CallOutcome.throttledReject, st)) ∧
    (throttleGate st e (cacheKeyFor e o) o.priority = GateResult.pauseThenProceed →
      optimizedRequestSync st e o now = (CallOutcome.paused, st)) := by
  refine ⟨?_, ?_, ?_, ?_⟩
  · intro h
    simp only [optimizedRequestSync, h]
    exact proceedPhase_tracker st e o (cacheKeyFor e o)
      (effectiveCacheTTL e o.cacheTTL) now
  · intro d h
    simp only [optimizedRequestSync, h]
  · intro h
    simp only [optimizedRequestSync, h]
  · intro h
    simp only [optimizedRequestSync, h]

/-- Witness for C5 (amended): an unthrottled call tracks. -/
theorem c5_amended_witness :
    (optimizedRequestSync emptyRM "/r" gOpts 0).2.tracker
      = (track emptyRM.tracker "/r" 0).2 :=
  (c5_amended emptyRM "/r" gOpts 0).1 rfl

/-- Claim C7 (amended): `clearRequestCache endpoint` with a truthy (non-null,
non-empty) endpoint removes exactly the entries whose key begins with the
endpoint followed by `:` (the separator `generateCacheKey` inserts), keeping
every other entry; with no endpoint — or with the empty string, which the
source's `if (endpoint)` truthiness test treats like null — it removes every
entry. -/
theorem c7_amended (cache : List (String × CacheEntry)) (e : String) :
    (e ≠ "" →
      ∀ (k : String) (entry : CacheEntry),
        ((k, entry) ∈ clearRequestCache cache (some e)) ↔
          ((k, entry) ∈ cache ∧ jsStartsWith k (e ++ ":") = false)) ∧
    clearRequestCache cache (some "") = [] ∧
    clearRequestCache cache none = [] := by
  refine ⟨?_, ?_, ?_⟩
  · intro he k entry
    unfold clearRequestCache
    dsimp only
    rw [if_neg he, List.mem_filter]
    simp
  · rfl
  · rfl

end RequestManager

namespace RequestManager

/-- Looking up the only key of a singleton association list. -/
theorem alookup_singleton {α : Type} (k : String) (v : α) :
    alookup [(k, v)] k = some v := by
  simp [alookup]

/-- Updating the only key of a singleton association list. -/
theorem aset_singleton {α : Type} (k : String) (v w : α) :
    aset [(k, v)] k w = [(k, w)] := by
  simp [aset]

/-- The optional cleanup step keeps a single-endpoint record whose
timestamps all lie within one second of the current call. -/
theorem cleanup_branch_endpoints (e : String) (ts : TrackerState)
    (l : List Nat) (a : Nat)
    (hend : ts.endpoints = [(e, ⟨l.length, l, false, 0⟩)])
    (hrel : ∀ x ∈ l, a - x < 1000) :
    (if a - ts.lastCleanup > 60000 then cleanupTracker ts a else ts).endpoints
      = [(e, ⟨l.length, l, false, 0⟩)] := by
  have hfilter : l.filter (fun t => decide (a - t < 60000)) = l :=
    List.filter_eq_self.mpr
      (fun x hx => decide_eq_true (by have := hrel x hx; omega))
  split
  · simp [cleanupTracker, hend, hfilter]
  · exact hend

/-- The optional cleanup step keeps an empty endpoint table empty. -/
theorem cleanup_branch_empty (ts : TrackerState) (a : Nat)
    (hend : ts.endpoints = []) :
    (if a - ts.lastCleanup > 60000 then cleanupTracker ts a else ts).endpoints
      = [] := by
  split
  · simp [cleanupTracker, hend]
  · exact hend

/-- A tracking step on an endpoint with no record yet: the record is
initialized with the single new timestamp and no throttle. -/
theorem trackAfterCleanup_empty (e : String) (ts1 : TrackerState) (a : Nat)
    (hend : ts1.endpoints = []) :
    (trackAfterCleanup ts1 e a).2.endpoints = [(e, ⟨1, [a], false, 0⟩)] := by
  have hr : (alookup ts1.endpoints e).getD freshRecord = freshRecord := by
    rw [hend]; rfl
  have hcond : ¬((((bumpRecord freshRecord a).timestamps.filter
      (fun t => a - t < 1000)).length > 10) ∧ a - (bumpRecord freshRecord a).lastWarning > 5000) := by
    rintro ⟨h1, -⟩
    simp [bumpRecord, freshRecord] at h1
  unfold trackAfterCleanup
  rw [hr]
  unfold trackDecide
  rw [if_neg hcond]
  simp [aset, hend, bumpRecord, freshRecord]

/-- A tracking step with at most nine prior calls on record, all within one
second of the new call: the timestamp is appended and the endpoint is not
throttled. -/
theorem trackAfterCleanup_small (e : String) (ts1 : TrackerState)
    (l : List Nat) (a : Nat)
    (hend : ts1.endpoints = [(e, ⟨l.length, l, false, 0⟩)])
    (hlen : l.length < 10)
    (hrel : ∀ x ∈ l, a - x < 1000) :
    (trackAfterCleanup ts1 e a).2.endpoints
      = [(e, ⟨l.length + 1, l ++ [a], false, 0⟩)] := by
  have hr : (alookup ts1.endpoints e).getD freshRecord
      = ⟨l.length, l, false, 0⟩ := by
    rw [hend, alookup_singleton]; rfl
  have hfilter : (l ++ [a]).filter (fun t => decide (a - t < 1000)) = l ++ [a] :=
    List.filter_eq_self.mpr (by
      intro x hx
      rcases List.mem_append.mp hx with h | h
      · exact decide_eq_true (hrel x h)
      · rw [List.mem_singleton.mp h]
        exact decide_eq_true (by omega))
  have hcond : ¬((((bumpRecord ⟨l.length, l, false, 0⟩ a).timestamps.filter
      (fun t => a - t < 1000)).length > 10) ∧
      a - (bumpRecord ⟨l.length, l, false, 0⟩ a).lastWarning > 5000) := by
    rintro ⟨h1, -⟩
    simp only [bumpRecord] at h1
    rw [hfilter] at h1
    simp [List.length_append] at h1
    omega
  unfold trackAfterCleanup
  rw [hr]
  unfold trackDecide
  rw [if_neg hcond]
  simp only [bumpRecord]
  rw [hend, aset_singleton]

/-- The 11th call within one second (at realistic clock values) marks the
endpoint throttled. -/
theorem trackAfterCleanup_throttles (e : String) (ts1 : TrackerState)
    (l : List Nat) (a : Nat)
    (hend : ts1.endpoints = [(e, ⟨l.length, l, false, 0⟩)])
    (hlen : l.length = 10)
    (hrel : ∀ x ∈ l, a - x < 1000)
    (h5 : 5000 < a) :
    trackerIsThrottled (trackAfterCleanup ts1 e a).2 e = true := by
  have hr : (alookup ts1.endpoints e).getD freshRecord
      = ⟨l.length, l, false, 0⟩ := by
    rw [hend, alookup_singleton]; rfl
  have hfilter : (l ++ [a]).filter (fun t => decide (a - t < 1000)) = l ++ [a] :=
    List.filter_eq_self.mpr (by
      intro x hx
      rcases List.mem_append.mp hx with h | h
      · exact decide_eq_true (hrel x h)
      · rw [List.mem_singleton.mp h]
        exact decide_eq_true (by omega))
  have hcond : (((bumpRecord ⟨l.length, l, false, 0⟩ a).timestamps.filter
      (fun t => a - t < 1000)).length > 10) ∧
      a - (bumpRecord ⟨l.length, l, false, 0⟩ a).lastWarning > 5000 := by
    constructor
    · simp only [bumpRecord]
      rw [hfilter]
      simp [List.length_append]
      omega
    · simpa [bumpRecord] using h5
  unfold trackAfterCleanup
  rw [hr]
  unfold trackDecide
  rw [if_pos hcond]
  unfold trackerIsThrottled
  simp only
  rw [hend, aset_singleton, alookup_singleton]
  rfl

/-- Iterated tracking from a fresh tracker, up to ten calls, all within one
second of each other: every timestamp is on record and the endpoint is never
throttled. -/
theorem runTrack_fresh (e : String) (c0 : Nat) (l : List Nat) :
    l.length ≤ 10 → l.Pairwise (fun x y => y - x < 1000) →
    (runTrack ⟨[], c0⟩ e l).endpoints
      = if l.length = 0 then [] else [(e, ⟨l.length, l, false, 0⟩)] := by
  induction l using List.reverseRecOn with
  | nil =>
      intro _ _
      simp [runTrack]
  | append_singleton l a ih =>
      intro hlen hpw
      have hlen' : l.length ≤ 10 := by
        rw [List.length_append] at hlen
        omega
      have hparts := List.pairwise_append.mp hpw
      have hrel : ∀ x ∈ l, a - x < 1000 := fun x hx =>
        hparts.2.2 x hx a (List.mem_singleton_self a)
      have hih := ih hlen' hparts.1
      have hfold : runTrack ⟨[], c0⟩ e (l ++ [a])
          = (track (runTrack ⟨[], c0⟩ e l) e a).2 := by
        simp [runTrack, List.foldl_append]
      rw [hfold]
      unfold track
      by_cases hz : l.length = 0
      · rw [if_pos hz] at hih
        have hl : l = [] := List.length_eq_zero.mp hz
        subst hl
        have h0 := cleanup_branch_empty (runTrack ⟨[], c0⟩ e []) a hih
        simpa using trackAfterCleanup_empty e _ a h0
      · rw [if_neg hz] at hih
        have h0 := cleanup_branch_endpoints e (runTrack ⟨[], c0⟩ e l) l a hih hrel
        have hlenlt : l.length < 10 := by
          rw [List.length_append] at hlen
          simp at hlen
          omega
        have hsmall := trackAfterCleanup_small e _ l a h0 hlenlt hrel
        rw [if_neg (show ¬((l ++ [a]).length = 0) by simp)]
        rw [List.length_append]
        simpa using hsmall

end RequestManager

namespace RequestManager

/-- Claim C4: (activation) eleven tracked calls to the same endpoint within
one second — at realistic clock values, `now > 5000` — mark that endpoint
throttled; (gate) while a state is throttled, a call rejects with the
throttled error exactly when its priority is `low` and no cache entry (fresh
or stale) exists for its key, and whenever any cache entry exists the cached
value is returned immediately for every non-high priority; (linkage) every
call on an unthrottled endpoint performs exactly one tracking step. -/
theorem c4_throttle_activation_and_gate (l10 : List Nat) (t11 : Nat)
    (e : String) (c0 : Nat)
    (hlen : l10.length = 10)
    (hpw : (l10 ++ [t11]).Pairwise (fun x y => y - x < 1000))
    (h5 : 5000 < t11) :
    trackerIsThrottled (runTrack ⟨[], c0⟩ e (l10 ++ [t11])) e = true ∧
    (∀ (st : RMState) (e2 : String) (o : RequestOptions) (now : Nat),
      trackerIsThrottled st.tracker e2 = true →
      (((optimizedRequestSync st e2 o now).1 = CallOutcome.throttledReject) ↔
        (o.priority = "low" ∧
         alookup st.requestCache (cacheKeyFor e2 o) = none)) ∧
      (∀ entry, o.priority ≠ "high" →
        alookup st.requestCache (cacheKeyFor e2 o) = some entry →
        (optimizedRequestSync st e2 o now).1
          = CallOutcome.staleReturn entry.data)) ∧
    (∀ (st : RMState) (e2 : String) (o : RequestOptions) (now : Nat),
      trackerIsThrottled st.tracker e2 = false →
      (optimizedRequestSync st e2 o now).2.tracker
        = (track st.tracker e2 now).2) := by
  refine ⟨?_, ?_, ?_⟩
  · have hparts := List.pairwise_append.mp hpw
    have hrel : ∀ x ∈ l10, t11 - x < 1000 := fun x hx =>
      hparts.2.2 x hx t11 (List.mem_singleton_self t11)
    have hmid := runTrack_fresh e c0 l10 (by omega) hparts.1
    rw [if_neg (by omega)] at hmid
    have hfold : runTrack ⟨[], c0⟩ e (l10 ++ [t11])
        = (track (runTrack ⟨[], c0⟩ e l10) e t11).2 := by
      simp [runTrack, List.foldl_append]
    rw [hfold]
    unfold track
    have h0 := cleanup_branch_endpoints e (runTrack ⟨[], c0⟩ e l10) l10 t11
      hmid hrel
    exact trackAfterCleanup_throttles e _ l10 t11 h0 hlen hrel h5
  · intro st e2 o now hthr
    constructor
    · by_cases hp : o.priority = "high"
      · have hg : throttleGate st e2 (cacheKeyFor e2 o) o.priority
            = GateResult.proceed := by
          rw [hp]
          exact throttleGate_proceed_of_high st e2 (cacheKeyFor e2 o)
        have hcall : optimizedRequestSync st e2 o now
            = proceedPhase st e2 o (cacheKeyFor e2 o)
                (effectiveCacheTTL e2 o.cacheTTL) now := by
          simp only [optimizedRequestSync, hg]
        rw [hcall]
        refine iff_of_false
          (proceedPhase_ne_throttledReject st e2 o (cacheKeyFor e2 o)
            (effectiveCacheTTL e2 o.cacheTTL) now) ?_
        rintro ⟨hl, -⟩
        rw [hp] at hl
        exact absurd hl (by decide)
      · cases hc : alookup st.requestCache (cacheKeyFor e2 o) with
        | some entry =>
            have hg : throttleGate st e2 (cacheKeyFor e2 o) o.priority
                = GateResult.staleReturn entry.data := by
              unfold throttleGate
              rw [if_pos ⟨hthr, hp⟩]
              simp only [hc]
            have hcall : optimizedRequestSync st e2 o now
                = (CallOutcome.staleReturn entry.data, st) := by
              simp only [optimizedRequestSync, hg]
            rw [hcall]
            refine iff_of_false (by simp) ?_
            rintro ⟨-, hnone⟩
            exact absurd hnone (by simp)
        | none =>
            by_cases hl : o.priority = "low"
            · have hg : throttleGate st e2 (cacheKeyFor e2 o) o.priority
                  = GateResult.throttledReject := by
                unfold throttleGate
                rw [if_pos ⟨hthr, hp⟩]
                simp only [hc]
                rw [if_pos hl]
              have hcall : optimizedRequestSync st e2 o now
                  = (CallOutcome.throttledReject, st) := by
                simp only [optimizedRequestSync, hg]
              rw [hcall]
              exact iff_of_true rfl ⟨hl, rfl⟩
            · have hg : throttleGate st e2 (cacheKeyFor e2 o) o.priority
                  = GateResult.pauseThenProceed := by
                unfold throttleGate
                rw [if_pos ⟨hthr, hp⟩]
                simp only [hc]
                rw [if_neg hl]
              have hcall : optimizedRequestSync st e2 o now
                  = (CallOutcome.paused, st) := by
                simp only [optimizedRequestSync, hg]
              rw [hcall]
              refine iff_of_false (by simp) ?_
              rintro ⟨hlo, -⟩
              exact hl hlo
    · intro entry hp hc
      have hg : throttleGate st e2 (cacheKeyFor e2 o) o.priority
          = GateResult.staleReturn entry.data := by
        unfold throttleGate
        rw [if_pos ⟨hthr, hp⟩]
        simp only [hc]
      simp only [optimizedRequestSync, hg]
  · intro st e2 o now hthr
    have hg := throttleGate_proceed_of_not_throttled st e2 (cacheKeyFor e2 o)
      o.priority hthr
    simp only [optimizedRequestSync, hg]
    exact proceedPhase_tracker st e2 o (cacheKeyFor e2 o)
      (effectiveCacheTTL e2 o.cacheTTL) now

/-- Witness for C4 at eleven concrete call times and a concrete throttled
state probed with a low-priority call. -/
theorem c4_witness :
    trackerIsThrottled (runTrack ⟨[], 0⟩ "/r"
      ([6000, 6001, 6002, 6003, 6004, 6005, 6006, 6007, 6008, 6009] ++ [6010]))
      "/r" = true ∧
    ((optimizedRequestSync thrRM "/r" lowOpts 7000).1
        = CallOutcome.throttledReject ↔
      (lowOpts.priority = "low" ∧
       alookup thrRM.requestCache (cacheKeyFor "/r" lowOpts) = none)) := by
  have h := c4_throttle_activation_and_gate
    [6000, 6001, 6002, 6003, 6004, 6005, 6006, 6007, 6008, 6009] 6010 "/r" 0
    (by decide) (by decide) (by decide)
  exact ⟨h.1, (h.2.1 thrRM "/r" lowOpts 7000 rfl).1⟩

end RequestManager

namespace RequestManager

/-- Witness for C7 (amended) at a concrete cache and a truthy endpoint. -/
theorem c7_amended_witness :
    (((rKey, c7Entry) ∈ clearRequestCache [(rKey, c7Entry)] (some "/nope")) ↔
      ((rKey, c7Entry) ∈ [(rKey, c7Entry)] ∧
       jsStartsWith rKey ("/nope" ++ ":") = false)) ∧
    clearRequestCache [(rKey, c7Entry)] (some "") = [] :=
  ⟨(c7_amended [(rKey, c7Entry)] "/nope").1 (by decide) rKey c7Entry,
   (c7_amended [(rKey, c7Entry)] "").2.1⟩

end RequestManager

namespace ConnectionProber

/-- Witness for C8 (amended) at a concrete status and an all-ok probe. -/
theorem c8_probe_resolution_witness :
    (probeBody c9Cs0 5 okProbe).2.checkInProgress = false ∧
    (probeBody c9Cs0 5 okProbe).2.lastChecked = 5 := by
  have h := c8_probe_resolution c9Cs0 5 okProbe
  exact ⟨h.2.1, h.2.2.1⟩

end ConnectionProber
